import Mathlib

/-!
Model of the nginx-plus-exporter collection pipeline (exporter.go).

The exporter fetches an NGINX Plus status JSON document, decodes it into
the `NginxStats` structure, and emits one Prometheus sample per leaf
metric.  Go maps are modelled as association lists (iteration order is a
parameter of the model, matching Go's unspecified map order); machine
integers are modelled as `Int` (the float64 conversions performed at
emission are exact for the 64-bit counter ranges involved, so sample
values are kept as `Int`).
-/

/-- JSON values as produced by the standard JSON parser on a well-formed
document.  Numbers are restricted to integers, the only numeric shape the
status payload uses. -/
inductive Json where
  | null
  | bool (b : Bool)
  | num (n : Int)
  | str (s : String)
  | arr (elems : List Json)
  | obj (fields : List (String × Json))

/-- connections block of NginxStats (exporter.go lines 20-25). -/
structure ConnectionsData where
  Accepted : Int
  Dropped : Int
  Active : Int
  Idle : Int
deriving DecidableEq, Repr

/-- ssl block of NginxStats (exporter.go lines 26-30). -/
structure SslData where
  Handshakes : Int
  HandshakesFailed : Int
  SessionReuses : Int
deriving DecidableEq, Repr

/-- requests block of NginxStats (exporter.go lines 31-34). -/
structure RequestsData where
  Total : Int
  Current : Int
deriving DecidableEq, Repr

/-- response-class breakdown shared by Server and Peer (exporter.go lines 43-50, 67-74). -/
structure ResponsesData where
  Responses1xx : Int
  Responses2xx : Int
  Responses3xx : Int
  Responses4xx : Int
  Responses5xx : Int
  Total : Int
deriving DecidableEq, Repr

/-- Server zone statistics (exporter.go lines 40-54). -/
structure Server where
  Processing : Int
  Requests : Int
  Responses : ResponsesData
  Discarded : Int
  Received : Int
  Sent : Int
deriving DecidableEq, Repr

/-- health_checks block of a peer (exporter.go lines 79-84). -/
structure HealthChecksData where
  Checks : Int
  Fails : Int
  Unhealthy : Int
  LastPassed : Option Bool
deriving DecidableEq, Repr

/-- One peer of an upstream zone (exporter.go lines 57-90). -/
structure PeerData where
  ID : Option Int
  Server : String
  Backup : Bool
  Weight : Int
  State : String
  Active : Int
  Keepalive : Int
  MaxConns : Int
  Requests : Int
  Responses : ResponsesData
  Sent : Int
  Received : Int
  Fails : Int
  Unavail : Int
  HealthChecks : HealthChecksData
  Downtime : Int
  Downstart : Int
  Selected : Int
  HeaderTime : Int
  ResponseTime : Int
deriving DecidableEq, Repr

/-- queue block of an upstream zone (exporter.go lines 93-97). -/
structure QueueData where
  Size : Int
  MaxSize : Int
  Overflows : Int
deriving DecidableEq, Repr

/-- Upstream zone statistics (exporter.go lines 56-98). -/
structure Upstream where
  Peers : List PeerData
  Keepalive : Int
  Zombies : Int
  Queue : QueueData
deriving DecidableEq, Repr

/-- Decoded status snapshot (exporter.go lines 19-38).  The two Go maps
(server_zones, upstreams) are modelled as association lists; the list
order stands for the map iteration order, which Go leaves unspecified. -/
structure NginxStats where
  Connections : ConnectionsData
  SSLs : SslData
  Requests : RequestsData
  ServerZones : List (String × Server)
  UpstreamZones : List (String × Upstream)
deriving DecidableEq, Repr

/-- A prometheus.Desc as built by newCustomMetric: fully-qualified name,
help string, and the ordered variable-label names. -/
structure Desc where
  fqName : String
  help : String
  variableLabels : List String
deriving DecidableEq, Repr

/-- prometheus.BuildFQName: joins namespace, subsystem and name with
underscores, skipping empty components; empty name gives an empty result. -/
def buildFQName (namespc sub nm : String) : String :=
  if nm = "" then ""
  else if namespc ≠ "" ∧ sub ≠ "" then namespc ++ "_" ++ sub ++ "_" ++ nm
  else if namespc ≠ "" then namespc ++ "_" ++ nm
  else if sub ≠ "" then sub ++ "_" ++ nm
  else nm

/-- newCustomMetric (exporter.go lines 106-111).  The Go function reads the
metrics namespace from the metricsNamespace flag; the model passes it
explicitly as the first argument. -/
def newCustomMetric (namespc metricGroupName metricName docString : String)
    (labels : List String) : Desc :=
  ⟨buildFQName namespc metricGroupName metricName, docString, labels⟩

/-- The Exporter (exporter.go lines 100-104): scrape URI and the five
descriptor maps, modelled as association lists in declaration order. -/
structure Exporter where
  URI : String
  connectionsMetrics : List (String × Desc)
  sslMetrics : List (String × Desc)
  requestsMetrics : List (String × Desc)
  serverMetrics : List (String × Desc)
  upstreamMetrics : List (String × Desc)
deriving DecidableEq, Repr

/-- Go map indexing m[k] for the descriptor maps (keys are unique), or the
zero Desc when k is absent. -/
def mapGet (m : List (String × Desc)) (k : String) : Desc :=
  match m with
  | [] => ⟨"", "", []⟩
  | kv :: rest => if kv.1 = k then kv.2 else mapGet rest k

/-- NewExporter (exporter.go lines 113-149): builds the immutable metric
catalog.  namespc is the value of the metrics.namespace flag. -/
def NewExporter (namespc uri : String) : Exporter where
  URI := uri
  connectionsMetrics :=
    [("accepted", newCustomMetric namespc "connections" "accepted" "nginx connections" []),
     ("dropped", newCustomMetric namespc "connections" "dropped" "nginx connections" []),
     ("active", newCustomMetric namespc "connections" "active" "nginx connections" []),
     ("idle", newCustomMetric namespc "connections" "idle" "nginx connections" [])]
  sslMetrics :=
    [("handshakes", newCustomMetric namespc "ssl" "handshakes" "nginx connections" []),
     ("handshakes_failed", newCustomMetric namespc "ssl" "handshakes_failed" "nginx connections" []),
     ("session_reuses", newCustomMetric namespc "ssl" "session_reuses" "nginx connections" [])]
  requestsMetrics :=
    [("total", newCustomMetric namespc "requests" "total" "nginx connections" []),
     ("current", newCustomMetric namespc "requests" "current" "nginx connections" [])]
  serverMetrics :=
    [("processing", newCustomMetric namespc "server" "processing" "nginx connections" ["server"]),
     ("requests", newCustomMetric namespc "server" "requests" "nginx connections" ["server"]),
     ("discarded", newCustomMetric namespc "server" "discarded" "nginx connections" ["server"]),
     ("received", newCustomMetric namespc "server" "received" "nginx connections" ["server"]),
     ("sent", newCustomMetric namespc "server" "sent" "nginx connections" ["server"]),
     ("responses", newCustomMetric namespc "server" "responses" "responses counter" ["server", "code"])]
  upstreamMetrics :=
    [("requests", newCustomMetric namespc "upstream" "requests" "requests counter" ["server", "upstream"]),
     ("fails", newCustomMetric namespc "upstream" "fails" "fails counter" ["server", "upstream"]),
     ("received", newCustomMetric namespc "upstream" "received" "receive counter" ["server", "upstream"]),
     ("sent", newCustomMetric namespc "upstream" "sent" "sent counter" ["server", "upstream"]),
     ("downtime", newCustomMetric namespc "upstream" "downtime" "downtime counter" ["server", "upstream"]),
     ("responses", newCustomMetric namespc "upstream" "responses" "response counter" ["server", "upstream", "code"])]

/-- prometheus value types used by Collect. -/
inductive ValueType where
  | CounterValue
  | GaugeValue
deriving DecidableEq, Repr

/-- One emitted sample, as built by prometheus.MustNewConstMetric:
descriptor, value type, numeric value, and ordered variable-label values. -/
structure Sample where
  desc : Desc
  vtype : ValueType
  value : Int
  labelValues : List String
deriving DecidableEq, Repr

/-- Exporter.Describe (exporter.go lines 151-168): sends every descriptor
of the catalog. -/
def Exporter.Describe (e : Exporter) : List Desc :=
  e.serverMetrics.map Prod.snd ++ e.connectionsMetrics.map Prod.snd ++
  e.sslMetrics.map Prod.snd ++ e.requestsMetrics.map Prod.snd ++
  e.upstreamMetrics.map Prod.snd

/-- Connection samples (exporter.go lines 193-196). -/
def connectionSamples (e : Exporter) (c : ConnectionsData) : List Sample :=
  [⟨mapGet e.connectionsMetrics "accepted", .CounterValue, c.Accepted, []⟩,
   ⟨mapGet e.connectionsMetrics "dropped", .CounterValue, c.Dropped, []⟩,
   ⟨mapGet e.connectionsMetrics "active", .GaugeValue, c.Active, []⟩,
   ⟨mapGet e.connectionsMetrics "idle", .GaugeValue, c.Idle, []⟩]

/-- SSL samples (exporter.go lines 199-201). -/
def sslSamples (e : Exporter) (s : SslData) : List Sample :=
  [⟨mapGet e.sslMetrics "handshakes", .CounterValue, s.Handshakes, []⟩,
   ⟨mapGet e.sslMetrics "handshakes_failed", .CounterValue, s.HandshakesFailed, []⟩,
   ⟨mapGet e.sslMetrics "session_reuses", .CounterValue, s.SessionReuses, []⟩]

/-- Samples for one server zone (exporter.go lines 205-214). -/
def serverZoneSamples (e : Exporter) (host : String) (s : Server) : List Sample :=
  [⟨mapGet e.serverMetrics "processing", .GaugeValue, s.Processing, [host]⟩,
   ⟨mapGet e.serverMetrics "requests", .CounterValue, s.Requests, [host]⟩,
   ⟨mapGet e.serverMetrics "discarded", .CounterValue, s.Discarded, [host]⟩,
   ⟨mapGet e.serverMetrics "received", .CounterValue, s.Received, [host]⟩,
   ⟨mapGet e.serverMetrics "sent", .CounterValue, s.Sent, [host]⟩,
   ⟨mapGet e.serverMetrics "responses", .CounterValue, s.Responses.Responses1xx, [host, "1xx"]⟩,
   ⟨mapGet e.serverMetrics "responses", .CounterValue, s.Responses.Responses2xx, [host, "2xx"]⟩,
   ⟨mapGet e.serverMetrics "responses", .CounterValue, s.Responses.Responses3xx, [host, "3xx"]⟩,
   ⟨mapGet e.serverMetrics "responses", .CounterValue, s.Responses.Responses4xx, [host, "4xx"]⟩,
   ⟨mapGet e.serverMetrics "responses", .CounterValue, s.Responses.Responses5xx, [host, "5xx"]⟩]

/-- Samples for one peer of an upstream zone (exporter.go lines 221-231). -/
def peerSamples (e : Exporter) (host : String) (p : PeerData) : List Sample :=
  [⟨mapGet e.upstreamMetrics "requests", .CounterValue, p.Requests, [host, p.Server]⟩,
   ⟨mapGet e.upstreamMetrics "sent", .CounterValue, p.Sent, [host, p.Server]⟩,
   ⟨mapGet e.upstreamMetrics "received", .CounterValue, p.Received, [host, p.Server]⟩,
   ⟨mapGet e.upstreamMetrics "downtime", .CounterValue, p.Downtime, [host, p.Server]⟩,
   ⟨mapGet e.upstreamMetrics "fails", .CounterValue, p.Fails, [host, p.Server]⟩,
   ⟨mapGet e.upstreamMetrics "responses", .CounterValue, p.Responses.Responses1xx, [host, p.Server, "1xx"]⟩,
   ⟨mapGet e.upstreamMetrics "responses", .CounterValue, p.Responses.Responses2xx, [host, p.Server, "2xx"]⟩,
   ⟨mapGet e.upstreamMetrics "responses", .CounterValue, p.Responses.Responses3xx, [host, p.Server, "3xx"]⟩,
   ⟨mapGet e.upstreamMetrics "responses", .CounterValue, p.Responses.Responses4xx, [host, p.Server, "4xx"]⟩,
   ⟨mapGet e.upstreamMetrics "responses", .CounterValue, p.Responses.Responses5xx, [host, p.Server, "5xx"]⟩]

/-- The server-zones loop of Collect (exporter.go lines 204-216). -/
def serverZonesSamples (e : Exporter) (zones : List (String × Server)) : List Sample :=
  zones.flatMap fun z => serverZoneSamples e z.1 z.2

/-- The upstream-zones loop of Collect (exporter.go lines 219-233). -/
def upstreamZonesSamples (e : Exporter) (zones : List (String × Upstream)) : List Sample :=
  zones.flatMap fun z => z.2.Peers.flatMap fun p => peerSamples e z.1 p

/-- The emission phase of Collect (exporter.go lines 192-235): all samples
produced for one decoded snapshot, in emission order. -/
def collectStats (e : Exporter) (s : NginxStats) : List Sample :=
  connectionSamples e s.Connections ++ sslSamples e s.SSLs ++
  serverZonesSamples e s.ServerZones ++ upstreamZonesSamples e s.UpstreamZones

/-! ## JSON decoding (encoding/json semantics for the schema structs)

json.Unmarshal leaves a field at its zero value when the key is absent or
the JSON value is null, and reports an error on a type mismatch.  On an
error the whole Unmarshal call returns that error, and Collect aborts, so
any partially-populated value is unobservable; the model therefore aborts
at the first mismatch. -/

/-- Value of the last binding of key k in a JSON object (on duplicate keys
json.Unmarshal lets the last occurrence win). -/
def lookupLast (fields : List (String × Json)) (k : String) : Option Json :=
  fields.foldl (fun acc kv => if kv.1 = k then some kv.2 else acc) none

/-- Decode an integer field: absent or null keeps the zero value, a number
is taken as is, anything else is a type error. -/
def decodeInt (o : Option Json) : Except String Int :=
  match o with
  | none => .ok 0
  | some .null => .ok 0
  | some (.num n) => .ok n
  | some _ => .error "json: cannot unmarshal value into field of int type"

/-- Decode a string field: absent or null keeps the empty string. -/
def decodeString (o : Option Json) : Except String String :=
  match o with
  | none => .ok ""
  | some .null => .ok ""
  | some (.str s) => .ok s
  | some _ => .error "json: cannot unmarshal value into field of string type"

/-- Decode a bool field: absent or null keeps false. -/
def decodeBool (o : Option Json) : Except String Bool :=
  match o with
  | none => .ok false
  | some .null => .ok false
  | some (.bool b) => .ok b
  | some _ => .error "json: cannot unmarshal value into field of bool type"

/-- Decode a pointer-to-int field such as Peer.ID: absent or null leaves a
nil pointer. -/
def decodeOptInt (o : Option Json) : Except String (Option Int) :=
  match o with
  | none => .ok none
  | some .null => .ok none
  | some (.num n) => .ok (some n)
  | some _ => .error "json: cannot unmarshal value into field of pointer-to-int type"

/-- Decode a pointer-to-bool field such as HealthChecks.LastPassed. -/
def decodeOptBool (o : Option Json) : Except String (Option Bool) :=
  match o with
  | none => .ok none
  | some .null => .ok none
  | some (.bool b) => .ok (some b)
  | some _ => .error "json: cannot unmarshal value into field of pointer-to-bool type"

/-- Decode the responses struct shared by Server and Peer. -/
def decodeResponses (o : Option Json) : Except String ResponsesData :=
  match o with
  | none => .ok ⟨0, 0, 0, 0, 0, 0⟩
  | some .null => .ok ⟨0, 0, 0, 0, 0, 0⟩
  | some (.obj fs) => do
      let r1 ← decodeInt (lookupLast fs "1xx")
      let r2 ← decodeInt (lookupLast fs "2xx")
      let r3 ← decodeInt (lookupLast fs "3xx")
      let r4 ← decodeInt (lookupLast fs "4xx")
      let r5 ← decodeInt (lookupLast fs "5xx")
      let t ← decodeInt (lookupLast fs "total")
      .ok ⟨r1, r2, r3, r4, r5, t⟩
  | some _ => .error "json: cannot unmarshal value into responses struct"

/-- Decode the connections struct. -/
def decodeConnections (o : Option Json) : Except String ConnectionsData :=
  match o with
  | none => .ok ⟨0, 0, 0, 0⟩
  | some .null => .ok ⟨0, 0, 0, 0⟩
  | some (.obj fs) => do
      let a ← decodeInt (lookupLast fs "accepted")
      let d ← decodeInt (lookupLast fs "dropped")
      let ac ← decodeInt (lookupLast fs "active")
      let i ← decodeInt (lookupLast fs "idle")
      .ok ⟨a, d, ac, i⟩
  | some _ => .error "json: cannot unmarshal value into connections struct"

/-- Decode the ssl struct. -/
def decodeSsl (o : Option Json) : Except String SslData :=
  match o with
  | none => .ok ⟨0, 0, 0⟩
  | some .null => .ok ⟨0, 0, 0⟩
  | some (.obj fs) => do
      let h ← decodeInt (lookupLast fs "handshakes")
      let hf ← decodeInt (lookupLast fs "handshakes_failed")
      let sr ← decodeInt (lookupLast fs "session_reuses")
      .ok ⟨h, hf, sr⟩
  | some _ => .error "json: cannot unmarshal value into ssl struct"

/-- Decode the requests struct. -/
def decodeRequests (o : Option Json) : Except String RequestsData :=
  match o with
  | none => .ok ⟨0, 0⟩
  | some .null => .ok ⟨0, 0⟩
  | some (.obj fs) => do
      let t ← decodeInt (lookupLast fs "total")
      let c ← decodeInt (lookupLast fs "current")
      .ok ⟨t, c⟩
  | some _ => .error "json: cannot unmarshal value into requests struct"

/-- Decode one server-zone value. -/
def decodeServer (j : Json) : Except String Server :=
  match j with
  | .null => .ok ⟨0, 0, ⟨0, 0, 0, 0, 0, 0⟩, 0, 0, 0⟩
  | .obj fs => do
      let pr ← decodeInt (lookupLast fs "processing")
      let rq ← decodeInt (lookupLast fs "requests")
      let rs ← decodeResponses (lookupLast fs "responses")
      let di ← decodeInt (lookupLast fs "discarded")
      let rc ← decodeInt (lookupLast fs "received")
      let sn ← decodeInt (lookupLast fs "sent")
      .ok ⟨pr, rq, rs, di, rc, sn⟩
  | _ => .error "json: cannot unmarshal value into Server"

/-- Decode the server_zones map into an association list in field order. -/
def decodeServerZones (o : Option Json) : Except String (List (String × Server)) :=
  match o with
  | none => .ok []
  | some .null => .ok []
  | some (.obj fs) =>
      fs.mapM fun kv => do
        let sv ← decodeServer kv.2
        .ok (kv.1, sv)
  | some _ => .error "json: cannot unmarshal value into server_zones map"

/-- Decode the health_checks struct of a peer. -/
def decodeHealthChecks (o : Option Json) : Except String HealthChecksData :=
  match o with
  | none => .ok ⟨0, 0, 0, none⟩
  | some .null => .ok ⟨0, 0, 0, none⟩
  | some (.obj fs) => do
      let c ← decodeInt (lookupLast fs "checks")
      let f ← decodeInt (lookupLast fs "fails")
      let u ← decodeInt (lookupLast fs "unhealthy")
      let lp ← decodeOptBool (lookupLast fs "last_passed")
      .ok ⟨c, f, u, lp⟩
  | some _ => .error "json: cannot unmarshal value into health_checks struct"

/-- Decode one peer of an upstream zone. -/
def decodePeer (j : Json) : Except String PeerData :=
  match j with
  | .null => .ok ⟨none, "", false, 0, "", 0, 0, 0, 0, ⟨0, 0, 0, 0, 0, 0⟩, 0, 0, 0, 0,
      ⟨0, 0, 0, none⟩, 0, 0, 0, 0, 0⟩
  | .obj fs => do
      let id ← decodeOptInt (lookupLast fs "id")
      let sv ← decodeString (lookupLast fs "server")
      let bk ← decodeBool (lookupLast fs "backup")
      let wt ← decodeInt (lookupLast fs "weight")
      let st ← decodeString (lookupLast fs "state")
      let ac ← decodeInt (lookupLast fs "active")
      let ka ← decodeInt (lookupLast fs "keepalive")
      let mc ← decodeInt (lookupLast fs "max_conns")
      let rq ← decodeInt (lookupLast fs "requests")
      let rs ← decodeResponses (lookupLast fs "responses")
      let sn ← decodeInt (lookupLast fs "sent")
      let rc ← decodeInt (lookupLast fs "received")
      let fl ← decodeInt (lookupLast fs "fails")
      let uv ← decodeInt (lookupLast fs "unavail")
      let hc ← decodeHealthChecks (lookupLast fs "health_checks")
      let dt ← decodeInt (lookupLast fs "downtime")
      let ds ← decodeInt (lookupLast fs "downstart")
      let sl ← decodeInt (lookupLast fs "selected")
      let ht ← decodeInt (lookupLast fs "header_time")
      let rt ← decodeInt (lookupLast fs "response_time")
      .ok ⟨id, sv, bk, wt, st, ac, ka, mc, rq, rs, sn, rc, fl, uv, hc, dt, ds, sl, ht, rt⟩
  | _ => .error "json: cannot unmarshal value into Peer"

/-- Decode the peers slice of an upstream zone: absent or null is the nil
slice. -/
def decodePeers (o : Option Json) : Except String (List PeerData) :=
  match o with
  | none => .ok []
  | some .null => .ok []
  | some (.arr xs) => xs.mapM decodePeer
  | some _ => .error "json: cannot unmarshal value into peers slice"

/-- Decode the queue struct of an upstream zone. -/
def decodeQueue (o : Option Json) : Except String QueueData :=
  match o with
  | none => .ok ⟨0, 0, 0⟩
  | some .null => .ok ⟨0, 0, 0⟩
  | some (.obj fs) => do
      let s ← decodeInt (lookupLast fs "size")
      let m ← decodeInt (lookupLast fs "max_size")
      let ov ← decodeInt (lookupLast fs "overflows")
      .ok ⟨s, m, ov⟩
  | some _ => .error "json: cannot unmarshal value into queue struct"

/-- Decode one upstream-zone value. -/
def decodeUpstream (j : Json) : Except String Upstream :=
  match j with
  | .null => .ok ⟨[], 0, 0, ⟨0, 0, 0⟩⟩
  | .obj fs => do
      let ps ← decodePeers (lookupLast fs "peers")
      let ka ← decodeInt (lookupLast fs "keepalive")
      let zb ← decodeInt (lookupLast fs "zombies")
      let q ← decodeQueue (lookupLast fs "queue")
      .ok ⟨ps, ka, zb, q⟩
  | _ => .error "json: cannot unmarshal value into Upstream"

/-- Decode the upstreams map into an association list in field order. -/
def decodeUpstreamZones (o : Option Json) : Except String (List (String × Upstream)) :=
  match o with
  | none => .ok []
  | some .null => .ok []
  | some (.obj fs) =>
      fs.mapM fun kv => do
        let uz ← decodeUpstream kv.2
        .ok (kv.1, uz)
  | some _ => .error "json: cannot unmarshal value into upstreams map"

/-- json.Unmarshal of a well-formed document into NginxStats
(exporter.go line 186). -/
def decodeNginxStats (j : Json) : Except String NginxStats :=
  match j with
  | .null => .ok ⟨⟨0, 0, 0, 0⟩, ⟨0, 0, 0⟩, ⟨0, 0⟩, [], []⟩
  | .obj fs => do
      let c ← decodeConnections (lookupLast fs "connections")
      let ssl ← decodeSsl (lookupLast fs "ssl")
      let req ← decodeRequests (lookupLast fs "requests")
      let sz ← decodeServerZones (lookupLast fs "server_zones")
      let uz ← decodeUpstreamZones (lookupLast fs "upstreams")
      .ok ⟨c, ssl, req, sz, uz⟩
  | _ => .error "json: cannot unmarshal value into NginxStats"

/-! ## The collection cycle -/

/-- Errors returned by fetchHTTP: a transport error, or a non-2xx HTTP
status (exporter.go lines 242-248). -/
inductive FetchError where
  | network (msg : String)
  | httpStatus (code : Int)
deriving DecidableEq, Repr

/-- Rendering of a FetchError, as fmt.Errorf renders it in fetchHTTP. -/
def FetchError.message : FetchError → String
  | .network m => m
  | .httpStatus c => "HTTP status " ++ toString c

/-- Outcome of parsing the fetched body bytes with the standard JSON
parser: the bytes are not valid JSON, or they parse to a document. -/
inductive ParseOutcome where
  | malformed (msg : String)
  | wellFormed (j : Json)

/-- Outcome of reading the response body (ioutil.ReadAll). -/
inductive BodyRead where
  | readError (msg : String)
  | content (p : ParseOutcome)

/-- Outcome of the underlying HTTP GET: a transport-level failure, or a
response with a status code and a body. -/
inductive TransportOutcome where
  | netError (msg : String)
  | response (statusCode : Int) (body : BodyRead)

/-- fetchHTTP (exporter.go lines 237-251): a transport failure is returned
as is; a status code outside 200-299 becomes an error carrying the code;
otherwise the body is returned. -/
def fetchHTTP (t : TransportOutcome) : Except FetchError BodyRead :=
  match t with
  | .netError m => .error (.network m)
  | .response code body =>
      if 200 ≤ code ∧ code < 300 then .ok body
      else .error (.httpStatus code)

/-- json.Unmarshal on the raw bytes (exporter.go line 186): a parse failure
or a schema mismatch is an error. -/
def unmarshal (p : ParseOutcome) : Except String NginxStats :=
  match p with
  | .malformed m => .error m
  | .wellFormed j => decodeNginxStats j

/-- Result of one collection cycle: the emitted samples and the log line
written when the cycle aborted.  Collect always returns normally — every
failure branch ends in a plain return, never a panic or exit. -/
structure CycleResult where
  samples : List Sample
  logged : Option String
deriving DecidableEq, Repr

/-- Exporter.Collect (exporter.go lines 170-235): fetch, read, unmarshal,
then emit; each failure logs and aborts the cycle with no samples. -/
def Exporter.Collect (e : Exporter) (t : TransportOutcome) : CycleResult :=
  match fetchHTTP t with
  | .error err => ⟨[], some ("fetchHTTP failed " ++ err.message)⟩
  | .ok body =>
      match body with
      | .readError m => ⟨[], some ("ioutil.ReadAll failed " ++ m)⟩
      | .content p =>
          match unmarshal p with
          | .error m => ⟨[], some ("json.Unmarshal failed " ++ m)⟩
          | .ok stats => ⟨collectStats e stats, none⟩

/-- The package-global http.DefaultClient as far as this program touches
it: its Timeout field, in nanoseconds (the Go zero value 0 means no
timeout).  fetchHTTP assigns it (exporter.go line 238) before every GET,
so it is state shared between collection cycles and with any other user of
the default client. -/
structure HttpDefaultClient where
  Timeout : Int
deriving DecidableEq, Repr

/-- 2*time.Second in nanoseconds, the timeout Collect passes to fetchHTTP
(exporter.go line 172). -/
def collectTimeout : Int := 2000000000

/-- Exporter.Collect with all cross-cycle state made explicit: the
receiver (URI and the five descriptor maps) and the package-global
http.DefaultClient.  The method body never assigns to a field of e, so
every exit returns the receiver unchanged; but line 172 calls
fetchHTTP(e.URI, 2*time.Second), whose first statement (line 238) executes
http.DefaultClient.Timeout = timeout before the GET, on every cycle and on
every exit path. -/
def Exporter.CollectGlobal (e : Exporter) (g : HttpDefaultClient)
    (t : TransportOutcome) : (Exporter × HttpDefaultClient) × CycleResult :=
  let g2 : HttpDefaultClient := ⟨collectTimeout⟩
  match fetchHTTP t with
  | .error err => ((e, g2), ⟨[], some ("fetchHTTP failed " ++ err.message)⟩)
  | .ok body =>
      match body with
      | .readError m => ((e, g2), ⟨[], some ("ioutil.ReadAll failed " ++ m)⟩)
      | .content p =>
          match unmarshal p with
          | .error m => ((e, g2), ⟨[], some ("json.Unmarshal failed " ++ m)⟩)
          | .ok stats => ((e, g2), ⟨collectStats e stats, none⟩)

/-- Configuration of the HTTP client used by fetchHTTP (exporter.go lines
237-241): the function sets http.DefaultClient.Timeout and issues the GET
with the default transport.  insecureFlag is the value of the insecure
flag (exporter.go line 259); the function body never reads it, and the
default transport's TLS configuration verifies server certificates
(InsecureSkipVerify is false). -/
structure HttpClientConfig where
  timeoutSeconds : Int
  insecureSkipVerify : Bool
deriving DecidableEq, Repr

/-- The client configuration fetchHTTP installs, as a function of the
insecure flag and the timeout it is called with. -/
def fetchHTTPClientConfig (insecureFlag : Bool) (timeoutSeconds : Int) :
    HttpClientConfig :=
  ⟨timeoutSeconds, false⟩

/-! ## Concrete fixtures -/

/-- The exporter built with the default flag values (metrics.namespace
"nginx", nginx.scrape_uri "http://localhost/status"). -/
def nginxExporter : Exporter := NewExporter "nginx" "http://localhost/status"

/-- The end-to-end example snapshot of the specification, as a parsed JSON
document.  Note the site1 zone has no discarded field. -/
def exampleSnapshotJson : Json :=
  .obj
    [("connections", .obj [("accepted", .num 5), ("dropped", .num 1),
        ("active", .num 2), ("idle", .num 3)]),
     ("ssl", .obj [("handshakes", .num 0), ("handshakes_failed", .num 0),
        ("session_reuses", .num 0)]),
     ("requests", .obj [("total", .num 100), ("current", .num 1)]),
     ("server_zones", .obj
        [("site1", .obj [("processing", .num 1), ("requests", .num 10),
            ("received", .num 500), ("sent", .num 900),
            ("responses", .obj [("1xx", .num 0), ("2xx", .num 9),
               ("3xx", .num 1), ("4xx", .num 0), ("5xx", .num 0),
               ("total", .num 10)])])]),
     ("upstreams", .obj [])]

/-- The decoded form of the example snapshot. -/
def exampleSnapshotStats : NginxStats :=
  ⟨⟨5, 1, 2, 3⟩, ⟨0, 0, 0⟩, ⟨100, 1⟩,
   [("site1", ⟨1, 10, ⟨0, 9, 1, 0, 0, 10⟩, 0, 500, 900⟩)], []⟩

/-- A peer record with address addr and all statistics zero, used as a
concrete input. -/
def plainPeer (addr : String) : PeerData :=
  ⟨none, addr, false, 0, "up", 0, 0, 0, 7, ⟨1, 2, 3, 4, 5, 15⟩, 0, 0, 0, 0,
   ⟨0, 0, 0, none⟩, 0, 0, 0, 0, 0⟩

/-- A snapshot with one upstream zone holding two peers, used as a concrete
input for the upstream label-order and idempotence claims. -/
def twoPeerStats : NginxStats :=
  ⟨⟨1, 0, 1, 0⟩, ⟨0, 0, 0⟩, ⟨2, 1⟩,
   [("siteA", ⟨0, 1, ⟨0, 1, 0, 0, 0, 1⟩, 0, 10, 20⟩),
    ("siteB", ⟨1, 2, ⟨0, 2, 0, 0, 0, 2⟩, 0, 30, 40⟩)],
   [("backend", ⟨[plainPeer "10.0.0.1:80", plainPeer "10.0.0.2:80"], 0, 0, ⟨0, 0, 0⟩⟩)]⟩

/-- twoPeerStats with both association lists reversed: the same decoded
snapshot under the opposite map iteration order. -/
def twoPeerStatsReversed : NginxStats :=
  ⟨⟨1, 0, 1, 0⟩, ⟨0, 0, 0⟩, ⟨2, 1⟩,
   [("siteB", ⟨1, 2, ⟨0, 2, 0, 0, 0, 2⟩, 0, 30, 40⟩),
    ("siteA", ⟨0, 1, ⟨0, 1, 0, 0, 0, 1⟩, 0, 10, 20⟩)],
   [("backend", ⟨[plainPeer "10.0.0.1:80", plainPeer "10.0.0.2:80"], 0, 0, ⟨0, 0, 0⟩⟩)]⟩

/-- A server-zone JSON object without the discarded field and with nonzero
values elsewhere, used as a concrete input for the optional-field claim. -/
def noDiscardedZoneJson : List (String × Json) :=
  [("processing", .num 3), ("requests", .num 42), ("received", .num 1000),
   ("sent", .num 2000),
   ("responses", .obj [("1xx", .num 0), ("2xx", .num 40), ("3xx", .num 1),
      ("4xx", .num 1), ("5xx", .num 0), ("total", .num 42)])]

/-! ## Helper lemmas -/

theorem string_append_right_ne (p : String) {a b : String} (h : a ≠ b) :
    p ++ a ≠ p ++ b := by
  intro hc
  apply h
  apply String.ext
  have hd := congrArg String.data hc
  rw [String.data_append, String.data_append] at hd
  exact List.append_cancel_left hd

theorem buildFQName_ne (ns : String) {g1 m1 g2 m2 : String}
    (hg1 : g1 ≠ "") (hm1 : m1 ≠ "") (hg2 : g2 ≠ "") (hm2 : m2 ≠ "")
    (h : g1 ++ "_" ++ m1 ≠ g2 ++ "_" ++ m2) :
    buildFQName ns g1 m1 ≠ buildFQName ns g2 m2 := by
  unfold buildFQName
  by_cases hns : ns = ""
  · subst hns
    simp [hm1, hm2, hg1, hg2]
    exact fun hc => h hc
  · simp [hm1, hm2, hg1, hg2, hns]
    have key := string_append_right_ne (p := ns ++ "_") (a := g1 ++ "_" ++ m1)
      (b := g2 ++ "_" ++ m2) h
    intro hc
    apply key
    rw [← String.append_assoc, ← String.append_assoc, ← String.append_assoc,
      ← String.append_assoc]
    exact hc

theorem length_flatMap_const {α β : Type} (l : List α) (f : α → List β) (n : Nat)
    (h : ∀ a, (f a).length = n) : (l.flatMap f).length = n * l.length := by
  induction l with
  | nil => simp
  | cons a t ih =>
      simp [List.flatMap_cons, List.length_append, h a, ih, Nat.mul_succ, Nat.add_comm]

theorem serverZonesSamples_length (e : Exporter) (zones : List (String × Server)) :
    (serverZonesSamples e zones).length = 10 * zones.length := by
  unfold serverZonesSamples
  exact length_flatMap_const zones (fun z => serverZoneSamples e z.1 z.2) 10 fun _ => rfl

theorem upstreamZonesSamples_length (e : Exporter) (zones : List (String × Upstream)) :
    (upstreamZonesSamples e zones).length =
      (zones.map fun z => 10 * z.2.Peers.length).sum := by
  induction zones with
  | nil => rfl
  | cons z t ih =>
      simp only [upstreamZonesSamples, List.flatMap_cons, List.length_append,
        List.map_cons, List.sum_cons] at *
      rw [ih, length_flatMap_const z.2.Peers (fun p => peerSamples e z.1 p) 10 fun _ => rfl]

theorem mem_collectStats_cases {e : Exporter} {s : NginxStats} {smp : Sample}
    (h : smp ∈ collectStats e s) :
    smp ∈ connectionSamples e s.Connections ∨ smp ∈ sslSamples e s.SSLs ∨
    (∃ z ∈ s.ServerZones, smp ∈ serverZoneSamples e z.1 z.2) ∨
    (∃ z ∈ s.UpstreamZones, ∃ p ∈ z.2.Peers, smp ∈ peerSamples e z.1 p) := by
  simp only [collectStats, List.mem_append, serverZonesSamples, upstreamZonesSamples,
    List.mem_flatMap] at h
  rcases h with ((h | h) | ⟨z, hz, h⟩) | ⟨z, hz, h⟩
  · exact Or.inl h
  · exact Or.inr (Or.inl h)
  · exact Or.inr (Or.inr (Or.inl ⟨z, hz, h⟩))
  · exact Or.inr (Or.inr (Or.inr ⟨z, hz, h⟩))

theorem except_bind_ok {ε α β : Type} {x : Except ε α} {f : α → Except ε β} {b : β}
    (h : (x >>= f) = .ok b) : ∃ a, x = .ok a ∧ f a = .ok b := by
  cases x with
  | error e => simp [Bind.bind, Except.bind] at h
  | ok a => exact ⟨a, rfl, by simpa [Bind.bind, Except.bind] using h⟩

theorem decodeServer_ok_discarded {fs : List (String × Json)} {sv : Server}
    (h : decodeServer (.obj fs) = .ok sv) :
    decodeInt (lookupLast fs "discarded") = .ok sv.Discarded := by
  simp only [decodeServer] at h
  obtain ⟨pr, hpr, h⟩ := except_bind_ok h
  obtain ⟨rq, hrq, h⟩ := except_bind_ok h
  obtain ⟨rs, hrs, h⟩ := except_bind_ok h
  obtain ⟨di, hdi, h⟩ := except_bind_ok h
  obtain ⟨rc, hrc, h⟩ := except_bind_ok h
  obtain ⟨sn, hsn, h⟩ := except_bind_ok h
  cases h
  exact hdi

theorem desc_fq_mem {ns uri : String} {s : NginxStats} {smp : Sample}
    (h : smp ∈ collectStats (NewExporter ns uri) s) :
    smp.desc.fqName ∈
      [buildFQName ns "connections" "accepted", buildFQName ns "connections" "dropped",
       buildFQName ns "connections" "active", buildFQName ns "connections" "idle",
       buildFQName ns "ssl" "handshakes", buildFQName ns "ssl" "handshakes_failed",
       buildFQName ns "ssl" "session_reuses",
       buildFQName ns "server" "processing", buildFQName ns "server" "requests",
       buildFQName ns "server" "discarded", buildFQName ns "server" "received",
       buildFQName ns "server" "sent", buildFQName ns "server" "responses",
       buildFQName ns "upstream" "requests", buildFQName ns "upstream" "sent",
       buildFQName ns "upstream" "received", buildFQName ns "upstream" "downtime",
       buildFQName ns "upstream" "fails", buildFQName ns "upstream" "responses"] := by
  rcases mem_collectStats_cases h with hm | hm | ⟨z, hz, hm⟩ | ⟨z, hz, p, hp, hm⟩ <;>
    simp only [connectionSamples, sslSamples, serverZoneSamples, peerSamples,
      List.mem_cons, List.not_mem_nil, or_false] at hm
  · rcases hm with rfl | rfl | rfl | rfl <;> simp [NewExporter, mapGet, newCustomMetric]
  · rcases hm with rfl | rfl | rfl <;> simp [NewExporter, mapGet, newCustomMetric]
  · rcases hm with rfl | rfl | rfl | rfl | rfl | rfl | rfl | rfl | rfl | rfl <;>
      simp [NewExporter, mapGet, newCustomMetric]
  · rcases hm with rfl | rfl | rfl | rfl | rfl | rfl | rfl | rfl | rfl | rfl <;>
      simp [NewExporter, mapGet, newCustomMetric]

/-! ## Claims -/

/-- C1: decoding the specification's end-to-end example snapshot succeeds
with the expected values, and collecting it under the default namespace
emits exactly 4 connection samples, 3 TLS samples, the 5 per-zone samples
for site1 (processing=1, requests=10, discarded=0, received=500, sent=900),
the 5 response-class samples for site1 valued 0, 9, 1, 0, 0, and nothing
else (in particular zero upstream samples). -/
theorem c1_example_snapshot :
    decodeNginxStats exampleSnapshotJson = Except.ok exampleSnapshotStats ∧
    collectStats nginxExporter exampleSnapshotStats =
      [⟨newCustomMetric "nginx" "connections" "accepted" "nginx connections" [], .CounterValue, 5, []⟩,
       ⟨newCustomMetric "nginx" "connections" "dropped" "nginx connections" [], .CounterValue, 1, []⟩,
       ⟨newCustomMetric "nginx" "connections" "active" "nginx connections" [], .GaugeValue, 2, []⟩,
       ⟨newCustomMetric "nginx" "connections" "idle" "nginx connections" [], .GaugeValue, 3, []⟩,
       ⟨newCustomMetric "nginx" "ssl" "handshakes" "nginx connections" [], .CounterValue, 0, []⟩,
       ⟨newCustomMetric "nginx" "ssl" "handshakes_failed" "nginx connections" [], .CounterValue, 0, []⟩,
       ⟨newCustomMetric "nginx" "ssl" "session_reuses" "nginx connections" [], .CounterValue, 0, []⟩,
       ⟨newCustomMetric "nginx" "server" "processing" "nginx connections" ["server"], .GaugeValue, 1, ["site1"]⟩,
       ⟨newCustomMetric "nginx" "server" "requests" "nginx connections" ["server"], .CounterValue, 10, ["site1"]⟩,
       ⟨newCustomMetric "nginx" "server" "discarded" "nginx connections" ["server"], .CounterValue, 0, ["site1"]⟩,
       ⟨newCustomMetric "nginx" "server" "received" "nginx connections" ["server"], .CounterValue, 500, ["site1"]⟩,
       ⟨newCustomMetric "nginx" "server" "sent" "nginx connections" ["server"], .CounterValue, 900, ["site1"]⟩,
       ⟨newCustomMetric "nginx" "server" "responses" "responses counter" ["server", "code"], .CounterValue, 0, ["site1", "1xx"]⟩,
       ⟨newCustomMetric "nginx" "server" "responses" "responses counter" ["server", "code"], .CounterValue, 9, ["site1", "2xx"]⟩,
       ⟨newCustomMetric "nginx" "server" "responses" "responses counter" ["server", "code"], .CounterValue, 1, ["site1", "3xx"]⟩,
       ⟨newCustomMetric "nginx" "server" "responses" "responses counter" ["server", "code"], .CounterValue, 0, ["site1", "4xx"]⟩,
       ⟨newCustomMetric "nginx" "server" "responses" "responses counter" ["server", "code"], .CounterValue, 0, ["site1", "5xx"]⟩] := by
  constructor
  · rfl
  · rfl

/-- C2: for every snapshot, the server-zone loop emits 10 samples per
server zone and the upstream-zone loop emits 10 samples per peer, summed
over upstream zones. -/
theorem c2_sample_counts (e : Exporter) (s : NginxStats) :
    (serverZonesSamples e s.ServerZones).length = 10 * s.ServerZones.length ∧
    (upstreamZonesSamples e s.UpstreamZones).length =
      (s.UpstreamZones.map fun z => 10 * z.2.Peers.length).sum :=
  ⟨serverZonesSamples_length e s.ServerZones,
   upstreamZonesSamples_length e s.UpstreamZones⟩

/-- C3: no sample emitted by a collection cycle carries the fully-qualified
name of the requests.total or requests.current metric, although both
descriptors are built by NewExporter and are output by Describe; the
decoded Requests values are dropped. -/
theorem c3_requests_metrics_never_emitted (ns uri : String) (s : NginxStats)
    (smp : Sample) (h : smp ∈ collectStats (NewExporter ns uri) s) :
    smp.desc.fqName ≠ buildFQName ns "requests" "total" ∧
    smp.desc.fqName ≠ buildFQName ns "requests" "current" ∧
    newCustomMetric ns "requests" "total" "nginx connections" [] ∈
      (NewExporter ns uri).Describe ∧
    newCustomMetric ns "requests" "current" "nginx connections" [] ∈
      (NewExporter ns uri).Describe := by
  have hd := desc_fq_mem h
  simp only [List.mem_cons, List.not_mem_nil, or_false] at hd
  refine ⟨?_, ?_, ?_, ?_⟩
  · rcases hd with h1|h1|h1|h1|h1|h1|h1|h1|h1|h1|h1|h1|h1|h1|h1|h1|h1|h1|h1 <;>
      rw [h1] <;>
      exact buildFQName_ne ns (by decide) (by decide) (by decide) (by decide) (by decide)
  · rcases hd with h1|h1|h1|h1|h1|h1|h1|h1|h1|h1|h1|h1|h1|h1|h1|h1|h1|h1|h1 <;>
      rw [h1] <;>
      exact buildFQName_ne ns (by decide) (by decide) (by decide) (by decide) (by decide)
  · simp [Exporter.Describe, NewExporter]
  · simp [Exporter.Describe, NewExporter]

/-- C4: when a server-zone JSON object has no discarded field, a successful
decode yields Discarded = 0, and the discarded counter sample emitted for
that zone carries value 0; the field's absence is never itself an error
(the witness decodes such a payload successfully). -/
theorem c4_missing_discarded_is_zero (fields : List (String × Json)) (sv : Server)
    (habs : lookupLast fields "discarded" = none)
    (hdec : decodeServer (.obj fields) = .ok sv) :
    sv.Discarded = 0 ∧
    ∀ e host, Sample.mk (mapGet e.serverMetrics "discarded") .CounterValue 0 [host] ∈
      serverZoneSamples e host sv := by
  have h0 : sv.Discarded = 0 := by
    have hx := decodeServer_ok_discarded hdec
    rw [habs] at hx
    simpa [decodeInt] using hx.symm
  refine ⟨h0, fun e host => ?_⟩
  simp [serverZoneSamples, h0]

/-- Witness for C4: the concrete server-zone payload without a discarded
field decodes successfully, to a Server whose Discarded is 0. -/
theorem c4_missing_discarded_is_zero_witness :
    lookupLast noDiscardedZoneJson "discarded" = none ∧
    decodeServer (.obj noDiscardedZoneJson) =
      .ok ⟨3, 42, ⟨0, 40, 1, 1, 0, 42⟩, 0, 1000, 2000⟩ ∧
    ((⟨3, 42, ⟨0, 40, 1, 1, 0, 42⟩, 0, 1000, 2000⟩ : Server).Discarded = 0 ∧
     ∀ e host, Sample.mk (mapGet e.serverMetrics "discarded") .CounterValue 0 [host] ∈
       serverZoneSamples e host ⟨3, 42, ⟨0, 40, 1, 1, 0, 42⟩, 0, 1000, 2000⟩) :=
  ⟨rfl, rfl, c4_missing_discarded_is_zero noDiscardedZoneJson _ rfl rfl⟩

/-- C5: a response with a status code outside 200-299 makes fetchHTTP
return an error carrying the code, and the collection cycle emits zero
samples and logs the failure; Collect returns normally (the model is a
total function into CycleResult, mirroring the plain return on the error
branch — no exit, no panic). -/
theorem c5_non2xx_aborts_cycle (e : Exporter) (code : Int) (body : BodyRead)
    (h : ¬(200 ≤ code ∧ code < 300)) :
    fetchHTTP (.response code body) = .error (.httpStatus code) ∧
    (e.Collect (.response code body)).samples = [] ∧
    (e.Collect (.response code body)).logged =
      some ("fetchHTTP failed " ++ ("HTTP status " ++ toString code)) := by
  have hf : fetchHTTP (.response code body) = .error (.httpStatus code) := by
    simp [fetchHTTP, h]
  refine ⟨hf, ?_, ?_⟩ <;> simp [Exporter.Collect, hf, FetchError.message]

/-- Witness for C5 at status code 404. -/
theorem c5_non2xx_aborts_cycle_witness :
    ¬((200 : Int) ≤ 404 ∧ (404 : Int) < 300) ∧
    (fetchHTTP (.response 404 (.content (.wellFormed .null))) =
        .error (.httpStatus 404) ∧
      (nginxExporter.Collect (.response 404 (.content (.wellFormed .null)))).samples = [] ∧
      (nginxExporter.Collect (.response 404 (.content (.wellFormed .null)))).logged =
        some ("fetchHTTP failed " ++ ("HTTP status " ++ toString (404 : Int)))) :=
  ⟨by decide, c5_non2xx_aborts_cycle nginxExporter 404 _ (by decide)⟩

/-- C6: when the fetched body does not unmarshal — it is not valid JSON, or
its top-level shape mismatches the schema — the cycle emits zero samples
and logs the parse error, returning normally exactly like a fetch failure. -/
theorem c6_unmarshal_error_aborts_cycle (e : Exporter) (code : Int)
    (p : ParseOutcome) (m : String) (hc : 200 ≤ code ∧ code < 300)
    (hu : unmarshal p = .error m) :
    e.Collect (.response code (.content p)) =
      ⟨[], some ("json.Unmarshal failed " ++ m)⟩ := by
  have hf : fetchHTTP (.response code (.content p)) = .ok (.content p) := by
    simp [fetchHTTP, hc]
  simp [Exporter.Collect, hf, hu]

/-- Witness for C6, once with bytes that are not valid JSON and once with a
well-formed document whose top-level shape mismatches the schema. -/
theorem c6_unmarshal_error_aborts_cycle_witness :
    (((200 : Int) ≤ 200 ∧ (200 : Int) < 300) ∧
      unmarshal (.malformed "unexpected end of JSON input") =
        .error "unexpected end of JSON input" ∧
      nginxExporter.Collect (.response 200 (.content (.malformed "unexpected end of JSON input"))) =
        ⟨[], some ("json.Unmarshal failed " ++ "unexpected end of JSON input")⟩) ∧
    (unmarshal (.wellFormed (.num 5)) =
        .error "json: cannot unmarshal value into NginxStats" ∧
      nginxExporter.Collect (.response 200 (.content (.wellFormed (.num 5)))) =
        ⟨[], some ("json.Unmarshal failed " ++ "json: cannot unmarshal value into NginxStats")⟩) :=
  ⟨⟨by decide, rfl,
      c6_unmarshal_error_aborts_cycle nginxExporter 200 _ _ (by decide) rfl⟩,
   ⟨rfl, c6_unmarshal_error_aborts_cycle nginxExporter 200 _ _ (by decide) rfl⟩⟩

/-- C7: every sample carrying the upstream responses descriptor has label
schema (server, upstream, code) and its ordered label values are exactly
the upstream zone name, the peer server address, and one of the five
response classes. -/
theorem c7_upstream_response_labels (ns uri : String) (s : NginxStats)
    (smp : Sample) (h : smp ∈ collectStats (NewExporter ns uri) s)
    (hd : smp.desc = mapGet (NewExporter ns uri).upstreamMetrics "responses") :
    smp.desc.variableLabels = ["server", "upstream", "code"] ∧
    ∃ z ∈ s.UpstreamZones, ∃ p ∈ z.2.Peers,
      ∃ cls ∈ (["1xx", "2xx", "3xx", "4xx", "5xx"] : List String),
        smp.labelValues = [z.1, p.Server, cls] := by
  refine ⟨by rw [hd]; simp [NewExporter, mapGet, newCustomMetric], ?_⟩
  rcases mem_collectStats_cases h with hm | hm | ⟨z, hz, hm⟩ | ⟨z, hz, p, hp, hm⟩ <;>
    simp only [connectionSamples, sslSamples, serverZoneSamples, peerSamples,
      List.mem_cons, List.not_mem_nil, or_false] at hm
  · rcases hm with rfl | rfl | rfl | rfl <;>
      simp [NewExporter, mapGet, newCustomMetric] at hd
  · rcases hm with rfl | rfl | rfl <;>
      simp [NewExporter, mapGet, newCustomMetric] at hd
  · rcases hm with rfl | rfl | rfl | rfl | rfl | rfl | rfl | rfl | rfl | rfl <;>
      simp [NewExporter, mapGet, newCustomMetric] at hd
  · rcases hm with rfl | rfl | rfl | rfl | rfl | rfl | rfl | rfl | rfl | rfl
    · simp [NewExporter, mapGet, newCustomMetric] at hd
    · simp [NewExporter, mapGet, newCustomMetric] at hd
    · simp [NewExporter, mapGet, newCustomMetric] at hd
    · simp [NewExporter, mapGet, newCustomMetric] at hd
    · simp [NewExporter, mapGet, newCustomMetric] at hd
    · exact ⟨z, hz, p, hp, "1xx", by simp, rfl⟩
    · exact ⟨z, hz, p, hp, "2xx", by simp, rfl⟩
    · exact ⟨z, hz, p, hp, "3xx", by simp, rfl⟩
    · exact ⟨z, hz, p, hp, "4xx", by simp, rfl⟩
    · exact ⟨z, hz, p, hp, "5xx", by simp, rfl⟩

/-- Witness for C7 at the two-peer fixture and the 1xx sample of the first
peer. -/
theorem c7_upstream_response_labels_witness :
    (Sample.mk (newCustomMetric "nginx" "upstream" "responses" "response counter"
        ["server", "upstream", "code"]) .CounterValue 1
        ["backend", "10.0.0.1:80", "1xx"]).desc.variableLabels =
      ["server", "upstream", "code"] ∧
    ∃ z ∈ twoPeerStats.UpstreamZones, ∃ p ∈ z.2.Peers,
      ∃ cls ∈ (["1xx", "2xx", "3xx", "4xx", "5xx"] : List String),
        (Sample.mk (newCustomMetric "nginx" "upstream" "responses" "response counter"
            ["server", "upstream", "code"]) .CounterValue 1
            ["backend", "10.0.0.1:80", "1xx"]).labelValues = [z.1, p.Server, cls] :=
  c7_upstream_response_labels "nginx" "http://localhost/status" twoPeerStats _
    (by decide) (by decide)

/-- C8: the snapshot-to-samples mapping is deterministic as a multiset —
two cycles over the same decoded snapshot, even under different map
iteration orders, emit permutations of one another (identical sample
sets). -/
theorem c8_collect_deterministic (e : Exporter) (s₁ s₂ : NginxStats)
    (hc : s₁.Connections = s₂.Connections) (hs : s₁.SSLs = s₂.SSLs)
    (hr : s₁.Requests = s₂.Requests)
    (hz : s₁.ServerZones.Perm s₂.ServerZones)
    (hu : s₁.UpstreamZones.Perm s₂.UpstreamZones) :
    (collectStats e s₁).Perm (collectStats e s₂) := by
  unfold collectStats serverZonesSamples upstreamZonesSamples
  rw [hc, hs]
  exact ((List.Perm.refl _).append (hz.flatMap_right _)).append (hu.flatMap_right _)

/-- Witness for C8: the two-peer fixture under both map iteration orders. -/
theorem c8_collect_deterministic_witness :
    (collectStats nginxExporter twoPeerStats).Perm
      (collectStats nginxExporter twoPeerStatsReversed) :=
  c8_collect_deterministic nginxExporter twoPeerStats twoPeerStatsReversed
    rfl rfl rfl (by decide) (by decide)

/-- C9 counterexample: the claim that a collection cycle mutates no state
shared between cycles is false of the program.  At a concrete input — the
default exporter, the process-start default client (Timeout 0), a refused
connection — the cycle rewrites the package-global
http.DefaultClient.Timeout from 0 to 2 seconds, so the cross-cycle state
after the cycle differs from the state before it. -/
theorem c9_collect_mutates_global :
    (nginxExporter.CollectGlobal ⟨0⟩ (.netError "connection refused")).1.2 ≠
      (⟨0⟩ : HttpDefaultClient) := by
  decide

/-- C9 amended: a collection cycle leaves the exporter — the URI and the
five descriptor maps — unchanged at every exit and retains no snapshot
data in the cross-cycle state, and the cycle result is exactly Collect's;
the one cross-cycle mutation is the package-global
http.DefaultClient.Timeout, overwritten with the constant 2 seconds on
every cycle (exporter.go lines 172 and 238). -/
theorem c9_collect_frame_amended (e : Exporter) (g : HttpDefaultClient)
    (t : TransportOutcome) :
    (e.CollectGlobal g t).1.1 = e ∧
    (e.CollectGlobal g t).1.2 = ⟨collectTimeout⟩ ∧
    (e.CollectGlobal g t).2 = e.Collect t := by
  cases t with
  | netError m => exact ⟨rfl, rfl, rfl⟩
  | response code body =>
      cases hf : fetchHTTP (.response code body) with
      | error err => simp [Exporter.CollectGlobal, Exporter.Collect, hf]
      | ok b =>
          cases b with
          | readError m => simp [Exporter.CollectGlobal, Exporter.Collect, hf]
          | content p =>
              cases hu : unmarshal p with
              | error m => simp [Exporter.CollectGlobal, Exporter.Collect, hf, hu]
              | ok stats => simp [Exporter.CollectGlobal, Exporter.Collect, hf, hu]

/-- C10 (refuting theorem): the HTTP client configuration fetchHTTP
installs is the same function of the timeout for both values of the
insecure flag — the flag is never read, and the default transport always
verifies the server certificate.  TLS certificate validation is therefore
not configurable: no pair of flag values makes the fetch behave
differently. -/
theorem c10_insecure_flag_has_no_effect (b₁ b₂ : Bool) (t : Int) :
    fetchHTTPClientConfig b₁ t = fetchHTTPClientConfig b₂ t ∧
    (fetchHTTPClientConfig b₁ t).insecureSkipVerify = false :=
  ⟨rfl, rfl⟩

/-- Witness for C3 at the default namespace, the example snapshot, and its
first emitted sample. -/
theorem c3_requests_metrics_never_emitted_witness :
    (Sample.mk (newCustomMetric "nginx" "connections" "accepted" "nginx connections" [])
        .CounterValue 5 []).desc.fqName ≠ buildFQName "nginx" "requests" "total" ∧
    (Sample.mk (newCustomMetric "nginx" "connections" "accepted" "nginx connections" [])
        .CounterValue 5 []).desc.fqName ≠ buildFQName "nginx" "requests" "current" ∧
    newCustomMetric "nginx" "requests" "total" "nginx connections" [] ∈
      (NewExporter "nginx" "http://localhost/status").Describe ∧
    newCustomMetric "nginx" "requests" "current" "nginx connections" [] ∈
      (NewExporter "nginx" "http://localhost/status").Describe :=
  c3_requests_metrics_never_emitted "nginx" "http://localhost/status"
    exampleSnapshotStats _ (by decide)
